/-
Verification of cppmuck's declaration-extraction and stub-synthesis core
(src/cppmuck/cppmuck.py).

The embedding models the core pipeline operating on an already-parsed
declaration stream: each libclang cursor relevant to the core is captured
as a `Cursor` record holding exactly the attributes the Python code reads
(spelling, semantic-parent chain, result type, location, kind, constness,
exception-specification kind, argument list, access specifier, and the
defaulted/deleted/definition flags).  Python strings are Lean `String`s;
the Python string operations the code uses (`startswith`, `split("::")`,
`"::".join`, `os.path.basename`, `os.path.splitext`, slicing) are embedded
explicitly below so that their semantics match CPython's.

Python list membership (`fn not in all_funcs`) compares each stored
element with the searched value via the stored element's user-defined
equality, i.e. it evaluates `v == fn` for every `v` already in the list;
the embedding of the deduplication loop follows that direction.
-/
import Mathlib

set_option autoImplicit false

namespace Cppmuck

/-- The libclang cursor kinds the tool inspects (plus catch-alls). -/
inductive CursorKind where
  | CLASS_DECL
  | CLASS_TEMPLATE
  | STRUCT_DECL
  | NAMESPACE
  | CONSTRUCTOR
  | DESTRUCTOR
  | CXX_METHOD
  | FUNCTION_DECL
  | FUNCTION_TEMPLATE
  | TRANSLATION_UNIT
  | OTHER
  deriving DecidableEq, Repr

/-- libclang access specifiers; libclang reports `INVALID` for
declarations that are not members of a class/struct/union. -/
inductive AccessSpecifier where
  | INVALID
  | PUBLIC
  | PROTECTED
  | PRIVATE
  | NONE
  deriving DecidableEq, Repr

/-- libclang exception-specification kinds. -/
inductive ExceptionSpecificationKind where
  | NONE
  | DYNAMIC_NONE
  | DYNAMIC
  | MS_ANY
  | BASIC_NOEXCEPT
  | COMPUTED_NOEXCEPT
  | UNEVALUATED
  | UNINSTANTIATED
  | UNPARSED
  deriving DecidableEq, Repr

/-- One link of a cursor's semantic-parent chain: its kind and spelling. -/
structure Scope where
  kind : CursorKind
  spelling : String
  deriving DecidableEq, Repr

/-- The slice of a libclang cursor that `cppmuck.py` reads.  `parents` is
the semantic-parent chain, innermost scope first (the walk in
`get_parent` / `get_namespace` follows `semantic_parent` repeatedly). -/
structure Cursor where
  spelling : String
  parents : List Scope
  result_type : String
  loc_file : String
  loc_line : Nat
  kind : CursorKind
  is_const_method : Bool
  exception_specification_kind : ExceptionSpecificationKind
  args : List (String × String)
  access_specifier : AccessSpecifier
  is_default_method : Bool
  is_deleted_method : Bool
  is_definition : Bool
  deriving DecidableEq, Repr

/-- Python `s.startswith(p)`: `p` is a prefix of `s` (by code point). -/
def pyStartsWith (s p : String) : Bool :=
  p.data.isPrefixOf s.data

/-- The class-like cursor kinds used by both scope walks
(`kinds` list in `get_parent` and `get_namespace`, lines 25-29/44-48). -/
def classKinds : List CursorKind :=
  [.CLASS_DECL, .CLASS_TEMPLATE, .STRUCT_DECL]

/-- The `result` list built by `get_parent` (lines 22-38): walk the
semantic-parent chain collecting class-like spellings, each inserted at
the front (so the returned list is outermost-first); stop at the first
non-class-like ancestor. -/
def get_parent_chain : List Scope → List String
  | [] => []
  | s :: rest =>
    if s.kind ∈ classKinds then get_parent_chain rest ++ [s.spelling]
    else []

/-- `get_parent` (lines 22-38): the class chain joined with "::". -/
def get_parent (parents : List Scope) : String :=
  String.intercalate "::" (get_parent_chain parents)

/-- The `result` list built by `get_namespace` (lines 41-60): walk the
semantic-parent chain, skipping class-like scopes, collecting namespace
spellings at the front; stop at the first scope that is neither
class-like nor a namespace. -/
def get_namespace_chain : List Scope → List String
  | [] => []
  | s :: rest =>
    if s.kind ∈ classKinds then get_namespace_chain rest
    else if s.kind = .NAMESPACE then get_namespace_chain rest ++ [s.spelling]
    else []

/-- `get_namespace` (lines 41-60): the namespace chain joined with "::". -/
def get_namespace (parents : List Scope) : String :=
  String.intercalate "::" (get_namespace_chain parents)

/-- `Arg` (lines 132-143): a parameter's spelling and type spelling. -/
structure Arg where
  name : String
  type : String
  deriving DecidableEq, Repr

/-- `Arg.__eq__` (lines 137-140): parameter name AND type must match. -/
def argEqb (a b : Arg) : Bool :=
  a.name == b.name && a.type == b.type

/-- `Func` (lines 146-230): the normalized signature record built by
`Func.__init__` from a cursor.  `nspace` embeds the Python attribute
`namespace` (a reserved word in Lean). -/
structure Func where
  name : String
  parent : String
  nspace : String
  return_type : String
  file : String
  line : Nat
  is_ctor : Bool
  is_const : Bool
  except_kind : String
  args : List Arg
  full_name : String
  deriving DecidableEq, Repr

/-- `Func.__full_name` (lines 219-230): join namespace, parent and name
with "::" , omitting empty segments. -/
def full_name_from (nspace parent name : String) : String :=
  let result := if nspace != "" then nspace else ""
  let result :=
    if parent != "" then (if result != "" then result ++ "::" else result) ++ parent
    else result
  let result := if result != "" then result ++ "::" else result
  result ++ name

/-- `Func.__init__` (lines 147-167): read the cursor's attributes into a
`Func`; `except_kind` is "noexcept" exactly for the basic noexcept form
(lines 159-161). -/
def Func.ofCursor (c : Cursor) : Func :=
  let parent := get_parent c.parents
  let nspace := get_namespace c.parents
  { name := c.spelling
    parent := parent
    nspace := nspace
    return_type := c.result_type
    file := c.loc_file
    line := c.loc_line
    is_ctor := if c.kind = .CONSTRUCTOR then true else if c.kind = .DESTRUCTOR then true else false
    is_const := c.is_const_method
    except_kind :=
      if c.exception_specification_kind = .BASIC_NOEXCEPT then "noexcept" else ""
    args := c.args.map (fun p => ⟨p.1, p.2⟩)
    full_name := full_name_from nspace parent c.spelling }

/-- `Func.__eq__` (lines 169-185): name, parent, namespace, return type
and arity must match, and every argument of `self` must occur (by
`Arg.__eq__`, i.e. name and type) somewhere in `other`'s argument list.
Parameter order, file, line, constness and exception kind are ignored. -/
def funcEqb (self other : Func) : Bool :=
  self.name == other.name
  && self.parent == other.parent
  && self.nspace == other.nspace
  && self.return_type == other.return_type
  && self.args.length == other.args.length
  && self.args.all (fun a => other.args.any (fun b => argEqb a b))

/-- The `args` string assembled by `Func.__str__` (lines 188-192):
"type name, " per argument, with the trailing two characters (", ")
sliced off when non-empty. -/
def Func.args_str (f : Func) : String :=
  let args := String.join (f.args.map (fun a => a.type ++ " " ++ a.name ++ ", "))
  if args != "" then String.mk (args.data.dropLast.dropLast) else args

/-- The `extras` string assembled by `Func.__str__` (lines 205-209):
" const" when const-qualified, then " " plus the exception keyword when
present. -/
def Func.extras (f : Func) : String :=
  (if f.is_const then " const" else "")
  ++ (if f.except_kind != "" then " " ++ f.except_kind else "")

/-- `Func.__str__` (lines 187-217): constructors/destructors render as
"parent::name(args) exceptkind {}"; other functions render as
"rettype parent::name(args) extras {body}" where body is " return {}; "
for non-void return types and empty otherwise. -/
def Func.str (f : Func) : String :=
  if f.is_ctor then
    f.parent ++ "::" ++ f.name ++ "(" ++ f.args_str ++ ") " ++ f.except_kind ++ " \x7b\x7d"
  else
    let body := if f.return_type != "void" then " return \x7b\x7d; " else ""
    f.return_type ++ " " ++ f.parent ++ "::" ++ f.name ++ "(" ++ f.args_str ++ ") "
      ++ f.extras ++ " \x7b" ++ body ++ "\x7d"

/-- The cursor kinds accepted by the filter (`kinds`, lines 273-279). -/
def funcKinds : List CursorKind :=
  [.CONSTRUCTOR, .DESTRUCTOR, .CXX_METHOD, .FUNCTION_DECL, .FUNCTION_TEMPLATE]

/-- The per-cursor filter of `parse_file` (lines 283-295): source file
string starts with the root dir, eligible kind, public access, not
defaulted, not deleted, and is a definition. -/
def eligible (root_dir : String) (c : Cursor) : Bool :=
  pyStartsWith c.loc_file root_dir
  && decide (c.kind ∈ funcKinds)
  && decide (c.access_specifier = .PUBLIC)
  && !c.is_default_method
  && !c.is_deleted_method
  && c.is_definition

/-- The name-prefix check of `parse_file` (lines 299-306): with a
non-empty prefix list, keep the function iff its full name starts with
at least one prefix; with an empty list everything passes. -/
def nameMatches (typenames : List String) (full_name : String) : Bool :=
  if typenames.isEmpty then true
  else typenames.any (fun tn => pyStartsWith full_name tn)

/-- The `dup` search of `parse_file` (lines 321-324): scan the accepted
list, remembering the LAST element equal (by `Func.__eq__`, evaluated as
stored-element == new-function) to the new function. -/
def lastDup (fns : List Func) (fn : Func) : Option Func :=
  fns.foldl (fun acc v => if funcEqb v fn then some v else acc) none

/-- Rendering of the `dup` variable in the f-string warning: `str(dup)`,
where `None` prints as "None". -/
def dupStr : Option Func → String
  | some v => v.str
  | none => "None"

/-- One iteration of the `walk_preorder` loop of `parse_file`
(lines 283-325) over the accumulated (accepted functions, warnings)
state: skip ineligible cursors, skip prefix mismatches, append new
functions, and for a function already present (by `Func.__eq__`) emit
the duplicate warning instead of appending. -/
def parse_step (root_dir : String) (typenames : List String)
    (acc : List Func × List String) (c : Cursor) : List Func × List String :=
  if !eligible root_dir c then acc
  else
    let fn := Func.ofCursor c
    if !nameMatches typenames fn.full_name then acc
    else if !(acc.1.any (fun v => funcEqb v fn)) then (acc.1 ++ [fn], acc.2)
    else
      (acc.1,
       acc.2 ++ ["warning: function '" ++ fn.str ++ "' is a duplicate of '"
         ++ dupStr (lastDup acc.1 fn) ++ "'"])

/-- The core loop of `parse_file` (lines 273-327) over the preorder
cursor stream: returns `all_funcs` together with the duplicate warnings
printed along the way.  (The compilation-database lookup, the libclang
invocation and the diagnostic gate that precede the loop are external
collaborators and are not part of the extraction core.) -/
def parse_file (root_dir : String) (typenames : List String)
    (cursors : List Cursor) : List Func × List String :=
  cursors.foldl (parse_step root_dir typenames) ([], [])

/-- CPython `s.split("::")` restricted to the separator the tool uses:
greedy left-to-right scan; the empty string yields one empty piece. -/
def splitCC : List Char → List (List Char)
  | [] => [[]]
  | ':' :: ':' :: rest => [] :: splitCC rest
  | c :: rest =>
    match splitCC rest with
    | [] => [[c]]
    | h :: t => (c :: h) :: t

/-- `ns.split("::")` as used by `generate_file` (line 374). -/
def pySplitColons (s : String) : List String :=
  (splitCC s.data).map String.mk

/-- `os.path.basename` for POSIX paths: everything after the last '/'. -/
def basename (p : String) : String :=
  String.mk ((p.data.reverse.takeWhile (fun c => c != '/')).reverse)

/-- `os.path.splitext(os.path.basename(p))[0]` as used on line 370-371:
drop the extension starting at the last '.' of the basename, provided
some earlier character of the basename is not a '.'. -/
def stem (p : String) : String :=
  let cs := (basename p).data
  match ((List.range cs.length).filter (fun i => cs.getD i ' ' == '.')).getLast? with
  | none => String.mk cs
  | some i =>
    if (List.range i).any (fun j => !(cs.getD j ' ' == '.')) then String.mk (cs.take i)
    else String.mk cs

/-- One insertion into the `ns_to_funcs` dict of `generate_file`
(lines 362-366); Python dicts preserve insertion order, modeled as an
association list keyed by namespace string. -/
def addToGroups (groups : List (String × List Func)) (fn : Func) :
    List (String × List Func) :=
  match groups with
  | [] => [(fn.nspace, [fn])]
  | (k, fs) :: rest =>
    if k == fn.nspace then (k, fs ++ [fn]) :: rest
    else (k, fs) :: addToGroups rest fn

/-- The `ns_to_funcs` grouping of `generate_file` (lines 362-366). -/
def ns_to_funcs (fns : List Func) : List (String × List Func) :=
  fns.foldl addToGroups []

/-- The string `s` built by `generate_file` (lines 361-389): the include
line for the stem of the source file, then per namespace group the
nested namespace openers, a blank line, each stub followed by a blank
line, the closers, and a final blank line.  (Writing `s` to the output
file is an external side effect and is not modeled.) -/
def generate_file (all_funcs : List Func) (filepath : String) : String :=
  let groups := ns_to_funcs all_funcs
  let s := "#include \"" ++ stem filepath ++ ".hpp\"\n\n"
  groups.foldl
    (fun s p =>
      let ns_list := pySplitColons p.1
      let s := ns_list.foldl (fun s v => s ++ "namespace " ++ v ++ " \x7b\n") s
      let s := s ++ "\n"
      let s := p.2.foldl (fun s fn => s ++ fn.str ++ "\n\n") s
      let s := ns_list.foldl (fun s _ => s ++ "\x7d\n") s
      s ++ "\n")
    s

/-! ### String helper lemmas -/

theorem string_data_inj {a b : String} (h : a.data = b.data) : a = b := by
  cases a
  cases b
  exact congrArg String.mk h

theorem data_append (a b : String) : (a ++ b).data = a.data ++ b.data := by
  cases a
  cases b
  rfl

theorem str_assoc (a b c : String) : a ++ b ++ c = a ++ (b ++ c) := by
  apply string_data_inj
  simp [data_append]

theorem append_empty_str (s : String) : s ++ "" = s := by
  apply string_data_inj
  rw [data_append]
  show s.data ++ ([] : List Char) = s.data
  exact List.append_nil _

/-! ### Helper lemmas about the pipeline -/

/-- Equal fields (parameter names included) make `Func.__eq__` succeed. -/
theorem funcEqb_of_fields {f g : Func} (hn : f.name = g.name)
    (hp : f.parent = g.parent) (hns : f.nspace = g.nspace)
    (hr : f.return_type = g.return_type) (ha : f.args = g.args) :
    funcEqb f g = true := by
  unfold funcEqb
  simp only [hn, hp, hns, hr, ha, beq_self_eq_true, Bool.true_and]
  simp only [Bool.and_eq_true, beq_iff_eq, List.all_eq_true, List.any_eq_true]
  intro a haMem
  exact ⟨a, haMem, by simp [argEqb]⟩

/-- Running the extraction loop on exactly two eligible, prefix-matching
cursors: the second is either reported as a duplicate of the first (when
`Func.__eq__` holds) or appended silently. -/
theorem parse_two (root : String) (tns : List String) (ca cb : Cursor)
    (hea : eligible root ca = true)
    (hma : nameMatches tns (Func.ofCursor ca).full_name = true)
    (heb : eligible root cb = true)
    (hmb : nameMatches tns (Func.ofCursor cb).full_name = true) :
    parse_file root tns [ca, cb] =
      if funcEqb (Func.ofCursor ca) (Func.ofCursor cb) then
        ([Func.ofCursor ca],
         ["warning: function '" ++ (Func.ofCursor cb).str ++ "' is a duplicate of '"
           ++ (Func.ofCursor ca).str ++ "'"])
      else ([Func.ofCursor ca, Func.ofCursor cb], []) := by
  unfold parse_file
  simp only [List.foldl_cons, List.foldl_nil]
  rw [show parse_step root tns ([], []) ca = ([Func.ofCursor ca], []) by
    simp [parse_step, hea, hma]]
  by_cases hq : funcEqb (Func.ofCursor ca) (Func.ofCursor cb) = true
  · simp [parse_step, heb, hmb, hq, lastDup, dupStr]
  · simp only [Bool.not_eq_true] at hq
    simp [parse_step, heb, hmb, hq]

/-- The full name of a cursor-derived `Func` is computed from its own
namespace, parent and name fields. -/
theorem full_name_ofCursor (c : Cursor) :
    (Func.ofCursor c).full_name =
      full_name_from (Func.ofCursor c).nspace (Func.ofCursor c).parent
        (Func.ofCursor c).name := rfl

/-! ### Concrete declaration records used as test inputs -/

/-- Builder for concrete cursors: a definition-bearing, non-defaulted,
non-deleted declaration with the given attributes. -/
def mkCursor (nm : String) (par : List Scope) (ret : String) (fl : String)
    (ln : Nat) (k : CursorKind) (cst : Bool) (exc : ExceptionSpecificationKind)
    (ags : List (String × String)) (acc : AccessSpecifier) : Cursor :=
  { spelling := nm, parents := par, result_type := ret, loc_file := fl,
    loc_line := ln, kind := k, is_const_method := cst,
    exception_specification_kind := exc, args := ags,
    access_specifier := acc, is_default_method := false,
    is_deleted_method := false, is_definition := true }

/-- Scope chain of a member of class `A` at global namespace scope. -/
def scopesA : List Scope := [⟨.CLASS_DECL, "A"⟩, ⟨.TRANSLATION_UNIT, ""⟩]

/-- `void A::f(int x)` overload taking an `int`. -/
def c1_cursor_int : Cursor :=
  mkCursor "f" scopesA "void" "/r/a.cpp" 3 .CXX_METHOD false .NONE
    [("x", "int")] .PUBLIC

/-- `void A::f(float x)`: same name, scope, kind and arity as
`c1_cursor_int`, but a different parameter type. -/
def c1_cursor_float : Cursor :=
  mkCursor "f" scopesA "void" "/r/a.cpp" 4 .CXX_METHOD false .NONE
    [("x", "float")] .PUBLIC

/-- `void A::g(int x)`. -/
def c2_cursor_x : Cursor :=
  mkCursor "g" scopesA "void" "/r/a.cpp" 5 .CXX_METHOD false .NONE
    [("x", "int")] .PUBLIC

/-- `void A::g(int y)`: identical to `c2_cursor_x` except for the
parameter's name. -/
def c2_cursor_y : Cursor :=
  mkCursor "g" scopesA "void" "/r/a.cpp" 6 .CXX_METHOD false .NONE
    [("y", "int")] .PUBLIC

/-- `void A::m()` as first seen. -/
def c3_cursor_fst : Cursor :=
  mkCursor "m" scopesA "void" "/r/a.cpp" 7 .CXX_METHOD false .NONE [] .PUBLIC

/-- The same `void A::m()` seen again through another include path
(different line). -/
def c3_cursor_snd : Cursor :=
  mkCursor "m" scopesA "void" "/r/a.cpp" 8 .CXX_METHOD false .NONE [] .PUBLIC

/-! ### C1: conflicting overloads -/

/-- C1, counterexample.  Two declarations sharing name, scope, kind and
arity but differing in a parameter type are both accepted, yet the run
emits NO warning at all — not the exactly-one conflict warning the claim
requires. -/
theorem c1_counterexample :
    funcEqb (Func.ofCursor c1_cursor_int) (Func.ofCursor c1_cursor_float) = false
    ∧ (parse_file "/r" [] [c1_cursor_int, c1_cursor_float]).1
        = [Func.ofCursor c1_cursor_int, Func.ofCursor c1_cursor_float]
    ∧ ¬((parse_file "/r" [] [c1_cursor_int, c1_cursor_float]).2.length = 1) := by
  decide

/-- C1, amended.  Two eligible, prefix-matching declarations that are
not `Func.__eq__`-equal (e.g. colliding on name, scope and arity but
differing in a parameter type or return type) are both accepted, and no
conflict warning is emitted: the warning list stays empty. -/
theorem c1_conflict_both_kept_no_warning (root : String) (tns : List String)
    (ca cb : Cursor)
    (hea : eligible root ca = true)
    (hma : nameMatches tns (Func.ofCursor ca).full_name = true)
    (heb : eligible root cb = true)
    (hmb : nameMatches tns (Func.ofCursor cb).full_name = true)
    (hne : funcEqb (Func.ofCursor ca) (Func.ofCursor cb) = false) :
    parse_file root tns [ca, cb]
      = ([Func.ofCursor ca, Func.ofCursor cb], []) := by
  rw [parse_two root tns ca cb hea hma heb hmb, hne]
  rfl

/-- C1, witness for the amended theorem at the concrete overload pair. -/
theorem c1_conflict_both_kept_no_warning_witness :
    (eligible "/r" c1_cursor_int = true
      ∧ eligible "/r" c1_cursor_float = true
      ∧ funcEqb (Func.ofCursor c1_cursor_int) (Func.ofCursor c1_cursor_float) = false)
    ∧ parse_file "/r" [] [c1_cursor_int, c1_cursor_float]
        = ([Func.ofCursor c1_cursor_int, Func.ofCursor c1_cursor_float], []) :=
  ⟨⟨by decide, by decide, by decide⟩,
   c1_conflict_both_kept_no_warning "/r" [] c1_cursor_int c1_cursor_float
     (by decide) (by decide) (by decide) (by decide) (by decide)⟩

/-! ### C2: equivalence ignoring parameter names -/

/-- C2, counterexample.  Two declarations identical in name, scope
chains, return type and parameter-type list, differing only in the
parameter's name, are NOT treated as equivalent: `Func.__eq__` fails
(because `Arg.__eq__` compares names too) and the run keeps two
signatures instead of collapsing them to one. -/
theorem c2_counterexample :
    (Func.ofCursor c2_cursor_x).name = (Func.ofCursor c2_cursor_y).name
    ∧ (Func.ofCursor c2_cursor_x).parent = (Func.ofCursor c2_cursor_y).parent
    ∧ (Func.ofCursor c2_cursor_x).nspace = (Func.ofCursor c2_cursor_y).nspace
    ∧ (Func.ofCursor c2_cursor_x).return_type = (Func.ofCursor c2_cursor_y).return_type
    ∧ (Func.ofCursor c2_cursor_x).args.map Arg.type
        = (Func.ofCursor c2_cursor_y).args.map Arg.type
    ∧ funcEqb (Func.ofCursor c2_cursor_x) (Func.ofCursor c2_cursor_y) = false
    ∧ ¬((parse_file "/r" [] [c2_cursor_x, c2_cursor_y]).1.length = 1) := by
  decide

/-- C2, amended.  The deduplicator's equivalence compares parameters by
type AND name: when two eligible, prefix-matching declarations agree on
name, scope chains, return type and the full parameter list (names
included), exactly one signature is emitted. -/
theorem c2_dedup_needs_param_names (root : String) (tns : List String)
    (ca cb : Cursor)
    (hea : eligible root ca = true)
    (hma : nameMatches tns (Func.ofCursor ca).full_name = true)
    (heb : eligible root cb = true)
    (hn : (Func.ofCursor ca).name = (Func.ofCursor cb).name)
    (hp : (Func.ofCursor ca).parent = (Func.ofCursor cb).parent)
    (hns : (Func.ofCursor ca).nspace = (Func.ofCursor cb).nspace)
    (hr : (Func.ofCursor ca).return_type = (Func.ofCursor cb).return_type)
    (ha : (Func.ofCursor ca).args = (Func.ofCursor cb).args) :
    (parse_file root tns [ca, cb]).1 = [Func.ofCursor ca] := by
  have hfull : (Func.ofCursor cb).full_name = (Func.ofCursor ca).full_name := by
    rw [full_name_ofCursor, full_name_ofCursor, hn, hp, hns]
  have hmb : nameMatches tns (Func.ofCursor cb).full_name = true := by
    rw [hfull]; exact hma
  have hq : funcEqb (Func.ofCursor ca) (Func.ofCursor cb) = true :=
    funcEqb_of_fields hn hp hns hr ha
  rw [parse_two root tns ca cb hea hma heb hmb, hq]
  rfl

/-- C2, witness for the amended theorem: two cursors equal in every
signature-relevant field (differing only in line) collapse to one. -/
theorem c2_dedup_needs_param_names_witness :
    (eligible "/r" c3_cursor_fst = true
      ∧ (Func.ofCursor c3_cursor_fst).args = (Func.ofCursor c3_cursor_snd).args)
    ∧ (parse_file "/r" [] [c3_cursor_fst, c3_cursor_snd]).1
        = [Func.ofCursor c3_cursor_fst] :=
  ⟨⟨by decide, by decide⟩,
   c2_dedup_needs_param_names "/r" [] c3_cursor_fst c3_cursor_snd
     (by decide) (by decide) (by decide) (by decide) (by decide) (by decide)
     (by decide) (by decide)⟩

/-! ### C3: equivalent duplicates -/

/-- C3, counterexample.  An equivalent duplicate is NOT discarded
silently: the run prints a duplicate warning naming both renderings. -/
theorem c3_counterexample :
    funcEqb (Func.ofCursor c3_cursor_fst) (Func.ofCursor c3_cursor_snd) = true
    ∧ (parse_file "/r" [] [c3_cursor_fst, c3_cursor_snd]).2
        = ["warning: function 'void A::m()  \x7b\x7d' is a duplicate of 'void A::m()  \x7b\x7d'"]
    ∧ ¬((parse_file "/r" [] [c3_cursor_fst, c3_cursor_snd]).2 = []) := by
  decide

/-- C3, amended.  A signature equivalent (by `Func.__eq__`) to an
already-accepted one is discarded from the accepted list, but NOT
silently: a duplicate warning quoting both stub renderings is emitted. -/
theorem c3_duplicate_discarded_with_warning (root : String) (tns : List String)
    (ca cb : Cursor)
    (hea : eligible root ca = true)
    (hma : nameMatches tns (Func.ofCursor ca).full_name = true)
    (heb : eligible root cb = true)
    (hmb : nameMatches tns (Func.ofCursor cb).full_name = true)
    (hq : funcEqb (Func.ofCursor ca) (Func.ofCursor cb) = true) :
    parse_file root tns [ca, cb]
      = ([Func.ofCursor ca],
         ["warning: function '" ++ (Func.ofCursor cb).str ++ "' is a duplicate of '"
           ++ (Func.ofCursor ca).str ++ "'"]) := by
  rw [parse_two root tns ca cb hea hma heb hmb, hq]
  rfl

/-- C3, witness for the amended theorem at a concrete duplicate pair. -/
theorem c3_duplicate_discarded_with_warning_witness :
    (eligible "/r" c2_cursor_x = true
      ∧ funcEqb (Func.ofCursor c2_cursor_x) (Func.ofCursor c2_cursor_x) = true)
    ∧ parse_file "/r" [] [c2_cursor_x, c2_cursor_x]
        = ([Func.ofCursor c2_cursor_x],
           ["warning: function '" ++ (Func.ofCursor c2_cursor_x).str
             ++ "' is a duplicate of '" ++ (Func.ofCursor c2_cursor_x).str ++ "'"]) :=
  ⟨⟨by decide, by decide⟩,
   c3_duplicate_discarded_with_warning "/r" [] c2_cursor_x c2_cursor_x
     (by decide) (by decide) (by decide) (by decide) (by decide)⟩

/-! ### C4: access filter on free functions -/

/-- A free function at translation-unit scope.  libclang reports the
`INVALID` access specifier for declarations that are not class members,
which is what this cursor carries. -/
def c4_cursor_free : Cursor :=
  mkCursor "util" [⟨.TRANSLATION_UNIT, ""⟩] "void" "/r/a.cpp" 9 .FUNCTION_DECL
    false .NONE [] .INVALID

/-- The same free function, were the AST to report `PUBLIC` access. -/
def c4_cursor_free_pub : Cursor :=
  mkCursor "util" [⟨.TRANSLATION_UNIT, ""⟩] "void" "/r/a.cpp" 9 .FUNCTION_DECL
    false .NONE [] .PUBLIC

/-- C4, counterexample.  A free function meeting every other filter
condition (under the root, eligible kind, not defaulted/deleted, a
definition, no prefixes supplied) whose access attribute is not PUBLIC —
as libclang reports for non-members — is dropped by the filter and never
emitted, so free functions do NOT pass regardless of access attribute. -/
theorem c4_counterexample :
    c4_cursor_free.kind = .FUNCTION_DECL
    ∧ pyStartsWith c4_cursor_free.loc_file "/r" = true
    ∧ c4_cursor_free.is_default_method = false
    ∧ c4_cursor_free.is_deleted_method = false
    ∧ c4_cursor_free.is_definition = true
    ∧ nameMatches [] (Func.ofCursor c4_cursor_free).full_name = true
    ∧ parse_file "/r" [] [c4_cursor_free] = ([], []) := by
  decide

/-- C4, amended.  The public-access requirement applies uniformly to all
declaration kinds: a free function or namespace-scope function template
that satisfies every other filter condition passes the filter iff its
access-specifier attribute is exactly PUBLIC. -/
theorem c4_public_required_for_free_functions (root : String) (c : Cursor)
    (hk : c.kind = .FUNCTION_DECL ∨ c.kind = .FUNCTION_TEMPLATE)
    (hf : pyStartsWith c.loc_file root = true)
    (hd : c.is_default_method = false)
    (hdel : c.is_deleted_method = false)
    (hdef : c.is_definition = true) :
    eligible root c = true ↔ c.access_specifier = .PUBLIC := by
  rcases hk with h | h <;>
    simp [eligible, h, hf, hd, hdel, hdef, funcKinds]

/-- C4, witness for the amended theorem: with PUBLIC access the free
function passes, and the ineligible INVALID twin indeed differs only in
the access attribute. -/
theorem c4_public_required_for_free_functions_witness :
    (pyStartsWith c4_cursor_free_pub.loc_file "/r" = true
      ∧ c4_cursor_free_pub.is_definition = true)
    ∧ eligible "/r" c4_cursor_free_pub = true :=
  ⟨⟨by decide, by decide⟩,
   (c4_public_required_for_free_functions "/r" c4_cursor_free_pub
     (Or.inl (by decide)) (by decide) (by decide) (by decide) (by decide)).mpr
     (by decide)⟩

/-! ### C5: scope fidelity -/

/-- Semantic-parent chain of a method of class `C` inside
`namespace a { namespace b { ... } }`, innermost scope first. -/
def c5_scopes : List Scope :=
  [⟨.CLASS_DECL, "C"⟩, ⟨.NAMESPACE, "b"⟩, ⟨.NAMESPACE, "a"⟩,
   ⟨.TRANSLATION_UNIT, ""⟩]

/-- The method `void f()` declared in `namespace a { namespace b
{ class C { void f(); }; } }`. -/
def c5_cursor : Cursor :=
  mkCursor "f" c5_scopes "void" "/r/a.cpp" 10 .CXX_METHOD false .NONE [] .PUBLIC

/-- C5, confirmed.  The scope walks produce class chain ["C"] and
namespace chain ["a", "b"], both outermost-first, and the derived fully
qualified name is a::b::C::f. -/
theorem c5_scope_fidelity :
    get_parent_chain c5_scopes = ["C"]
    ∧ get_namespace_chain c5_scopes = ["a", "b"]
    ∧ get_parent c5_scopes = "C"
    ∧ get_namespace c5_scopes = "a::b"
    ∧ (Func.ofCursor c5_cursor).full_name = "a::b::C::f" := by
  decide

/-! ### C6: concrete stub rendering -/

/-- `int C::compute(int x) const noexcept` declared in class `C` inside
namespace `ns`, in file /src/compute.cpp. -/
def c6_cursor : Cursor :=
  mkCursor "compute" [⟨.CLASS_DECL, "C"⟩, ⟨.NAMESPACE, "ns"⟩, ⟨.TRANSLATION_UNIT, ""⟩]
    "int" "/src/compute.cpp" 11 .CXX_METHOD true .BASIC_NOEXCEPT
    [("x", "int")] .PUBLIC

/-- C6, counterexample.  The stub emitted for the method (the line the
renderer places inside the namespace block) is not the claimed
"int ns::C::compute(int x) const noexcept { return {}; }": the rendered
scope qualifier uses only the class chain, and a double space separates
the parameter list from the qualifiers. -/
theorem c6_counterexample :
    generate_file [Func.ofCursor c6_cursor] "/src/compute.cpp"
      = "#include \"compute.hpp\"\n\nnamespace ns \x7b\n\n"
        ++ (Func.ofCursor c6_cursor).str ++ "\n\n\x7d\n\n"
    ∧ ¬((Func.ofCursor c6_cursor).str
        = "int ns::C::compute(int x) const noexcept \x7b return \x7b\x7d; \x7d") := by
  decide

/-- C6, amended.  The method renders, nested inside the `namespace ns`
block, as the line "int C::compute(int x)  const noexcept { return {}; }" —
class-chain qualification only (the namespace appears solely as the
enclosing block) and two spaces before the qualifiers. -/
theorem c6_render_concrete :
    generate_file [Func.ofCursor c6_cursor] "/src/compute.cpp"
      = "#include \"compute.hpp\"\n\nnamespace ns \x7b\n\nint C::compute(int x)  const noexcept \x7b return \x7b\x7d; \x7d\n\n\x7d\n\n" := by
  decide

/-! ### C7: prefix filtering -/

/-- A method `g` of class `Other` in namespace `a::b`. -/
def c7_cursor_other : Cursor :=
  mkCursor "g"
    [⟨.CLASS_DECL, "Other"⟩, ⟨.NAMESPACE, "b"⟩, ⟨.NAMESPACE, "a"⟩,
     ⟨.TRANSLATION_UNIT, ""⟩]
    "void" "/r/a.cpp" 12 .CXX_METHOD false .NONE [] .PUBLIC

/-- A method `f` of class `C` in namespace `a::b`. -/
def c7_cursor_c : Cursor :=
  mkCursor "f"
    [⟨.CLASS_DECL, "C"⟩, ⟨.NAMESPACE, "b"⟩, ⟨.NAMESPACE, "a"⟩,
     ⟨.TRANSLATION_UNIT, ""⟩]
    "void" "/r/a.cpp" 13 .CXX_METHOD false .NONE [] .PUBLIC

/-- C7, confirmed.  With prefixes supplied, a declaration is kept iff
its fully qualified name starts with at least one of them; with no
prefixes everything passes; concretely, prefixes ["a::b::C"] exclude
a::b::Other::g and include a::b::C::f. -/
theorem c7_prefix_filtering :
    (∀ (tns : List String) (full : String),
      nameMatches tns full = true
        ↔ (tns = [] ∨ tns.any (fun tn => pyStartsWith full tn) = true))
    ∧ (Func.ofCursor c7_cursor_other).full_name = "a::b::Other::g"
    ∧ (Func.ofCursor c7_cursor_c).full_name = "a::b::C::f"
    ∧ nameMatches ["a::b::C"] (Func.ofCursor c7_cursor_other).full_name = false
    ∧ nameMatches ["a::b::C"] (Func.ofCursor c7_cursor_c).full_name = true
    ∧ (parse_file "/r" ["a::b::C"] [c7_cursor_other, c7_cursor_c]).1
        = [Func.ofCursor c7_cursor_c] := by
  refine ⟨?_, by decide, by decide, by decide, by decide, by decide⟩
  intro tns full
  cases tns <;> simp [nameMatches]

/-! ### C8: out-of-root exclusion -/

/-- Follows the claim's words, not the code: a path lies lexically under
a root directory when it is the root itself or extends it at a path
component boundary. -/
def lexicallyUnder (root path : String) : Bool :=
  path == root || pyStartsWith path (root ++ "/")

/-- A public method of class `H`, defined in /homefoo/x.cpp — a file
that is NOT lexically under the project root /home, though its path
string starts with "/home". -/
def c8_cursor : Cursor :=
  mkCursor "h" [⟨.CLASS_DECL, "H"⟩, ⟨.TRANSLATION_UNIT, ""⟩] "void"
    "/homefoo/x.cpp" 15 .CXX_METHOD false .NONE [] .PUBLIC

/-- A declaration whose file does not even share the root as a string
prefix, used to witness the amended theorem. -/
def c8_cursor_out : Cursor :=
  mkCursor "k" [⟨.CLASS_DECL, "K"⟩, ⟨.TRANSLATION_UNIT, ""⟩] "void"
    "/elsewhere/y.cpp" 16 .CXX_METHOD false .NONE [] .PUBLIC

/-- C8, counterexample.  The filter tests `str.startswith`, not lexical
containment: a declaration in /homefoo/x.cpp is not lexically under the
root /home, yet it appears in the extraction result (with no prefixes
supplied), because "/homefoo/x.cpp" begins with the string "/home". -/
theorem c8_counterexample :
    lexicallyUnder "/home" "/homefoo/x.cpp" = false
    ∧ (Func.ofCursor c8_cursor).file = "/homefoo/x.cpp"
    ∧ (parse_file "/home" [] [c8_cursor]).1 = [Func.ofCursor c8_cursor] := by
  decide

/-- C8, amended.  A declaration whose source-file path does not start
with the project-root string (plain string prefix, the test the filter
performs) never contributes to the result: removing such a cursor from
the stream leaves the output of the run unchanged, for every root,
every choice of prefixes and every surrounding stream. -/
theorem c8_out_of_root_excluded (root : String) (tns : List String)
    (pre post : List Cursor) (c : Cursor)
    (h : pyStartsWith c.loc_file root = false) :
    parse_file root tns (pre ++ c :: post) = parse_file root tns (pre ++ post) := by
  have hstep : ∀ acc, parse_step root tns acc c = acc := by
    intro acc
    simp [parse_step, eligible, h]
  unfold parse_file
  rw [List.foldl_append, List.foldl_cons, hstep, ← List.foldl_append]

/-- C8, witness for the amended theorem: dropping an out-of-root cursor
from a singleton stream yields the empty run. -/
theorem c8_out_of_root_excluded_witness :
    pyStartsWith c8_cursor_out.loc_file "/home" = false
    ∧ parse_file "/home" [] ([] ++ c8_cursor_out :: [])
        = parse_file "/home" [] ([] ++ []) :=
  ⟨by decide,
   c8_out_of_root_excluded "/home" [] [] [] c8_cursor_out (by decide)⟩

/-! ### C9: rendering of the empty namespace chain -/

/-- A public method of a class `G` declared directly at global
namespace scope: its namespace chain is empty. -/
def c9_cursor : Cursor :=
  mkCursor "reset" [⟨.CLASS_DECL, "G"⟩, ⟨.TRANSLATION_UNIT, ""⟩] "void"
    "/r/g.cpp" 17 .CXX_METHOD false .NONE [] .PUBLIC

/-- C9, confirmed.  For a signature with empty namespace string the
renderer does not emit the stub at top level: splitting "" on "::"
yields the single empty segment, so the stub sits inside one block
opened by a namespace directive with an empty name ("namespace " ++ ""
++ " {") and closed by exactly one matching brace line. -/
theorem c9_empty_namespace_block (f : Func) (path : String) (h : f.nspace = "") :
    generate_file [f] path
      = "#include \"" ++ stem path ++ ".hpp\"\n\n" ++ "namespace " ++ "" ++ " \x7b\n"
        ++ "\n" ++ f.str ++ "\n\n" ++ "\x7d\n" ++ "\n" := by
  rcases f with ⟨nm, par, nsf, rt, fl, ln, ic, icst, ek, ags, fn⟩
  change nsf = "" at h
  subst h
  rfl

/-- C9, witness at a concrete global-scope method. -/
theorem c9_empty_namespace_block_witness :
    (Func.ofCursor c9_cursor).nspace = ""
    ∧ generate_file [Func.ofCursor c9_cursor] "/r/g.cpp"
        = "#include \"" ++ stem "/r/g.cpp" ++ ".hpp\"\n\n" ++ "namespace " ++ ""
          ++ " \x7b\n" ++ "\n" ++ (Func.ofCursor c9_cursor).str ++ "\n\n" ++ "\x7d\n" ++ "\n" :=
  ⟨by decide,
   c9_empty_namespace_block (Func.ofCursor c9_cursor) "/r/g.cpp" (by decide)⟩

/-! ### C10: noexcept rendering -/

/-- C10, confirmed.  The signature's rendered exception keyword is
"noexcept" exactly when the declaration's exception-specification kind
is the basic noexcept form; for every other kind (computed noexcept,
dynamic throw specifications, or none) it is the empty string, and the
qualifier segment spliced into the stub carries nothing beyond the
const qualifier. -/
theorem c10_noexcept_iff_basic (c : Cursor) :
    ((Func.ofCursor c).except_kind = "noexcept"
        ↔ c.exception_specification_kind = .BASIC_NOEXCEPT)
    ∧ ((Func.ofCursor c).except_kind = ""
        ↔ c.exception_specification_kind ≠ .BASIC_NOEXCEPT)
    ∧ (c.exception_specification_kind = .BASIC_NOEXCEPT →
        (Func.ofCursor c).extras
          = (if (Func.ofCursor c).is_const then " const" else "") ++ " noexcept")
    ∧ (c.exception_specification_kind ≠ .BASIC_NOEXCEPT →
        (Func.ofCursor c).extras
          = (if (Func.ofCursor c).is_const then " const" else "")) := by
  have he : (Func.ofCursor c).except_kind
      = if c.exception_specification_kind = .BASIC_NOEXCEPT then "noexcept" else "" := rfl
  by_cases h : c.exception_specification_kind = .BASIC_NOEXCEPT
  · refine ⟨by rw [he, if_pos h]; simp [h], ?_, fun _ => ?_, fun hne => absurd h hne⟩
    · rw [he, if_pos h]
      simp [h, show ("noexcept" : String) ≠ "" from by decide]
    · unfold Func.extras
      rw [he, if_pos h,
        show (if ("noexcept" : String) != "" then " " ++ "noexcept" else "")
          = " noexcept" from by decide]
  · refine ⟨?_, by rw [he, if_neg h]; simp [h], fun hb => absurd hb h, fun _ => ?_⟩
    · rw [he, if_neg h]
      simp [h, show ("" : String) ≠ "noexcept" from by decide]
    · unfold Func.extras
      rw [he, if_neg h,
        show (if ("" : String) != "" then " " ++ "" else "") = "" from by decide]
      exact append_empty_str _

/-- A basic-noexcept const method used to witness the noexcept case. -/
def c10_cursor : Cursor :=
  mkCursor "w" scopesA "void" "/r/a.cpp" 18 .CXX_METHOD true .BASIC_NOEXCEPT
    [] .PUBLIC

/-- C10, witness at a concrete basic-noexcept declaration. -/
theorem c10_noexcept_iff_basic_witness :
    c10_cursor.exception_specification_kind = .BASIC_NOEXCEPT
    ∧ (Func.ofCursor c10_cursor).extras
        = (if (Func.ofCursor c10_cursor).is_const then " const" else "") ++ " noexcept" :=
  ⟨by decide, (c10_noexcept_iff_basic c10_cursor).2.2.1 (by decide)⟩

end Cppmuck
